import Mathlib

/-!
Shallow embedding of src/music_assistant_models/streamdetails.py: the
StreamDetails dataclass (a mashumaro DataClassDictMixin), its derived uri
accessor, its serialization contract (field-level serialize="omit" /
deserialize=pass_through options and the legacy stream_type rewrite in
StreamDetails.__post_serialize__), its deserialization and its generated
equality.

Transport values (the entries of the dict produced by to_dict and consumed
by from_dict) are modelled by the inductive type Value below.  Python float
fields are carried as rationals: the record only stores and moves these
values, it performs no arithmetic on them, so the carrier only needs
decidable equality.  Python dicts are modelled as association lists in
insertion order.
-/

/-- A JSON-shaped transport value: the payload type of the mapping produced
by serialization and accepted by deserialization, and the carrier of the
dynamically-typed (pass-through) fields of the record. -/
inductive Value where
  | str (s : String)
  | int (n : Int)
  | float (q : Rat)
  | bool (b : Bool)
  | null
  | list (xs : List Value)
  | dict (xs : List (String × Value))

/-- The transport mapping: a string-keyed association list of values. -/
def Dict : Type := List (String × Value)

/-- Key lookup in a transport mapping (first match wins; serialized output
has distinct keys). -/
def dlookup : List (String × Value) → String → Option Value
  | [], _ => none
  | (k, v) :: rest, key => if k == key then some v else dlookup rest key

/-- Assignment d[k] = v on a transport mapping: replaces the value at an
existing key in place, appends the pair when the key is absent (Python dict
item assignment). -/
def setKey : List (String × Value) → String → Value → List (String × Value)
  | [], k, v => [(k, v)]
  | (k0, v0) :: rest, k, v => if k0 == k then (k, v) :: rest else (k0, v0) :: setKey rest k v

/-- Fuel-indexed worker for pyReplace.  Each step consumes at least one
character of the input, so fuel equal to the input length never runs out
for a non-empty pattern. -/
def pyReplaceAux (old new : List Char) : Nat → List Char → List Char
  | _, [] => []
  | 0, l => l
  | fuel + 1, c :: rest =>
    if old.isPrefixOf (c :: rest) then
      new ++ pyReplaceAux old new fuel (rest.drop (old.length - 1))
    else
      c :: pyReplaceAux old new fuel rest

/-- Model of the Python str.replace method for a non-empty pattern: every
non-overlapping occurrence of old in s, scanned left to right, is replaced
by new.  The source only ever calls it with the non-empty patterns
"cache" and "multi_file". -/
def pyReplace (s old new : String) : String :=
  ⟨pyReplaceAux old.data new.data s.data.length s.data⟩

/-- Modelled from the spec: the external MediaType enumeration
(music_assistant_models.enums is not part of the excerpt).  The spec names
the members track and radio; each member's underlying value is its
lower-case name. -/
inductive MediaType where
  | track
  | radio
deriving DecidableEq

/-- Underlying string value of a MediaType member. -/
def MediaType.value : MediaType → String
  | .track => "track"
  | .radio => "radio"

/-- All MediaType members. -/
def MediaType.members : List MediaType := [.track, .radio]

/-- Member lookup by value, as performed by the enum constructor during
deserialization: some member when the string names one, none otherwise. -/
def MediaType.parse (s : String) : Option MediaType :=
  MediaType.members.find? (fun m => m.value == s)

/-- Modelled from the spec: the external StreamType enumeration
(music_assistant_models.enums is not part of the excerpt).  The spec names
custom, local_file, encrypted_http, icy, hls and the two internal caching
members cache and multi_file; each member's underlying value is its
lower-case name. -/
inductive StreamType where
  | custom
  | local_file
  | encrypted_http
  | icy
  | hls
  | cache
  | multi_file
deriving DecidableEq

/-- Underlying string value of a StreamType member. -/
def StreamType.value : StreamType → String
  | .custom => "custom"
  | .local_file => "local_file"
  | .encrypted_http => "encrypted_http"
  | .icy => "icy"
  | .hls => "hls"
  | .cache => "cache"
  | .multi_file => "multi_file"

/-- All StreamType members. -/
def StreamType.members : List StreamType :=
  [.custom, .local_file, .encrypted_http, .icy, .hls, .cache, .multi_file]

/-- Member lookup by value, as performed by the enum constructor during
deserialization. -/
def StreamType.parse (s : String) : Option StreamType :=
  StreamType.members.find? (fun m => m.value == s)

/-- Modelled from the spec: the external VolumeNormalizationMode closed
enumeration (music_assistant_models.enums is not part of the excerpt); the
spec does not name its members, so a representative closed member set is
used — no claim depends on the particular member names. -/
inductive VolumeNormalizationMode where
  | disabled
  | dynamic
  | fixed_gain
deriving DecidableEq

/-- Underlying string value of a VolumeNormalizationMode member. -/
def VolumeNormalizationMode.value : VolumeNormalizationMode → String
  | .disabled => "disabled"
  | .dynamic => "dynamic"
  | .fixed_gain => "fixed_gain"

/-- All VolumeNormalizationMode members. -/
def VolumeNormalizationMode.members : List VolumeNormalizationMode :=
  [.disabled, .dynamic, .fixed_gain]

/-- Member lookup by value, as performed by the enum constructor during
deserialization. -/
def VolumeNormalizationMode.parse (s : String) : Option VolumeNormalizationMode :=
  VolumeNormalizationMode.members.find? (fun m => m.value == s)

/-- Modelled from the spec: the external AudioFormat value type
(music_assistant_models.media_items is not part of the excerpt); the spec
describes it as a codec / sample-rate / channel / bit-depth descriptor that
is opaque here beyond being present and serializable. -/
structure AudioFormat where
  content_type : String
  sample_rate : Int
  bit_depth : Int
  channels : Int
deriving DecidableEq

/-- Serialization of an AudioFormat to its transport mapping. -/
def AudioFormat.toValue (af : AudioFormat) : Value :=
  .dict [("content_type", .str af.content_type), ("sample_rate", .int af.sample_rate),
         ("bit_depth", .int af.bit_depth), ("channels", .int af.channels)]

/-- Deserialization of an AudioFormat from a transport value. -/
def AudioFormat.parse : Value → Except String AudioFormat
  | .dict xs =>
    match dlookup xs "content_type", dlookup xs "sample_rate",
          dlookup xs "bit_depth", dlookup xs "channels" with
    | some (.str ct), some (.int sr), some (.int bd), some (.int ch) =>
      .ok { content_type := ct, sample_rate := sr, bit_depth := bd, channels := ch }
    | _, _, _, _ => .error "InvalidFieldValue: audio_format"
  | _ => .error "InvalidFieldValue: audio_format"

/-- Modelled from the spec: the external per-player DSPDetails value type
(music_assistant_models.dsp is not part of the excerpt); treated as an
opaque serializable value, so a minimal representative shape is used. -/
structure DSPDetails where
  enabled : Bool
deriving DecidableEq

/-- Serialization of a DSPDetails to its transport mapping. -/
def DSPDetails.toValue (d : DSPDetails) : Value :=
  .dict [("enabled", .bool d.enabled)]

/-- Deserialization of a DSPDetails from a transport value. -/
def DSPDetails.parse : Value → Except String DSPDetails
  | .dict xs =>
    match dlookup xs "enabled" with
    | some (.bool b) => .ok { enabled := b }
    | _ => .error "InvalidFieldValue: dsp"
  | _ => .error "InvalidFieldValue: dsp"

/-- The StreamDetails dataclass of streamdetails.py, fields in source
order.  The fields declared with serialize="omit" / deserialize=pass_through
and compare=False (path through enable_cache, fade_in through created_at)
are carried as raw transport values: Python does not enforce their
annotations, construction stores whatever it is given and deserialization
passes input through without validation, so the dynamic Value carrier is the
faithful type.  The Python defaults of those fields appear as the
corresponding Value defaults; created_at has no literal default (its Python
default_factory produces the current time, which construction and
deserialization receive as an explicit argument). -/
structure StreamDetails where
  provider : String
  item_id : String
  audio_format : AudioFormat
  media_type : MediaType := .track
  stream_type : StreamType := .custom
  duration : Option Int := none
  size : Option Int := none
  stream_title : Option String := none
  path : Value := .null
  data : Value := .null
  extra_input_args : Value := .list []
  decryption_key : Value := .null
  allow_seek : Value := .bool false
  can_seek : Value := .bool false
  enable_cache : Value := .null
  loudness : Option Rat := none
  loudness_album : Option Rat := none
  prefer_album_loudness : Bool := false
  volume_normalization_mode : Option VolumeNormalizationMode := none
  volume_normalization_gain_correct : Option Rat := none
  target_loudness : Option Rat := none
  strip_silence_begin : Bool := false
  strip_silence_end : Bool := false
  dsp : Option (List (String × DSPDetails)) := none
  fade_in : Value := .bool false
  seek_position : Value := .int 0
  queue_id : Value := .null
  seconds_streamed : Value := .null
  stream_error : Value := .null
  cache : Value := .null
  created_at : Value

/-- The derived uri property of StreamDetails:
provider plus "://" plus the media_type value plus "/" plus item_id. -/
def StreamDetails.uri (s : StreamDetails) : String :=
  s.provider ++ "://" ++ s.media_type.value ++ "/" ++ s.item_id

/-- Serializer for an optional string field: None becomes null. -/
def serOptStr : Option String → Value
  | none => .null
  | some s => .str s

/-- Serializer for an optional integer field: None becomes null. -/
def serOptInt : Option Int → Value
  | none => .null
  | some n => .int n

/-- Serializer for an optional float field: None becomes null. -/
def serOptFloat : Option Rat → Value
  | none => .null
  | some q => .float q

/-- Serializer for the optional volume_normalization_mode enum field: a
member serializes to its underlying string value. -/
def serOptVNM : Option VolumeNormalizationMode → Value
  | none => .null
  | some m => .str m.value

/-- Serializer for the optional dsp mapping field: each per-player
DSPDetails entry serializes to its own transport mapping. -/
def serDSP : Option (List (String × DSPDetails)) → Value
  | none => .null
  | some m => .dict (m.map (fun kv => (kv.1, kv.2.toValue)))

/-- The mapping produced for a record by the generated to_dict body before
the __post_serialize__ hook runs: one entry per field in declaration order,
except the fields flagged serialize="omit" (path, data, extra_input_args,
decryption_key, allow_seek, can_seek, enable_cache, fade_in, seek_position,
queue_id, seconds_streamed, stream_error, cache, created_at), which are
omitted entirely; enum fields serialize to their underlying string value,
None to null. -/
def StreamDetails.baseDict (s : StreamDetails) : Dict :=
  [("provider", .str s.provider),
   ("item_id", .str s.item_id),
   ("audio_format", s.audio_format.toValue),
   ("media_type", .str s.media_type.value),
   ("stream_type", .str s.stream_type.value),
   ("duration", serOptInt s.duration),
   ("size", serOptInt s.size),
   ("stream_title", serOptStr s.stream_title),
   ("loudness", serOptFloat s.loudness),
   ("loudness_album", serOptFloat s.loudness_album),
   ("prefer_album_loudness", .bool s.prefer_album_loudness),
   ("volume_normalization_mode", serOptVNM s.volume_normalization_mode),
   ("volume_normalization_gain_correct", serOptFloat s.volume_normalization_gain_correct),
   ("target_loudness", serOptFloat s.target_loudness),
   ("strip_silence_begin", .bool s.strip_silence_begin),
   ("strip_silence_end", .bool s.strip_silence_end),
   ("dsp", serDSP s.dsp)]

/-- The body of StreamDetails.__post_serialize__ acting on the output
mapping d: two statements, each reading d at key "stream_type", calling
the string replace method on the value ("cache" to "local_file", then
"multi_file" to "local_file") and assigning the result back to
d at key "stream_type".  A missing key raises KeyError and a non-string
value raises AttributeError, so the embedding is fallible. -/
def postSerializeDict (d : Dict) : Except String Dict :=
  match dlookup d "stream_type" with
  | some (.str v) =>
    let d1 := setKey d "stream_type" (.str (pyReplace v "cache" "local_file"))
    match dlookup d1 "stream_type" with
    | some (.str v1) => .ok (setKey d1 "stream_type" (.str (pyReplace v1 "multi_file" "local_file")))
    | some _ => .error "AttributeError: replace"
    | none => .error "KeyError: stream_type"
  | some _ => .error "AttributeError: replace"
  | none => .error "KeyError: stream_type"

/-- StreamDetails.__post_serialize__ as a method in state-passing style:
it receives self and the freshly produced mapping and returns the
(possibly mutated) self next to the result.  No statement of the source
body assigns to self — it only assigns into d — so self is returned
unchanged. -/
def StreamDetails.postSerialize (self : StreamDetails) (d : Dict) :
    StreamDetails × Except String Dict :=
  (self, postSerializeDict d)

/-- The full to_dict pipeline in state-passing style: build the base
mapping, then run the __post_serialize__ hook; the first component is the
record after serialization. -/
def StreamDetails.to_dict_st (s : StreamDetails) : StreamDetails × Except String Dict :=
  s.postSerialize s.baseDict

/-- The serialized transport mapping of a record: result of to_dict. -/
def StreamDetails.to_dict (s : StreamDetails) : Except String Dict :=
  s.to_dict_st.2

/-- Parser for a required string field. -/
def parseStr : Value → Except String String
  | .str s => .ok s
  | _ => .error "InvalidFieldValue: str"

/-- Parser for an optional string field: null becomes None. -/
def parseOptStr : Value → Except String (Option String)
  | .null => .ok none
  | .str s => .ok (some s)
  | _ => .error "InvalidFieldValue: str"

/-- Parser for an optional integer field: null becomes None. -/
def parseOptInt : Value → Except String (Option Int)
  | .null => .ok none
  | .int n => .ok (some n)
  | _ => .error "InvalidFieldValue: int"

/-- Parser for an optional float field: null becomes None; an integer is
accepted and widened, mirroring the float() coercion applied to float
fields during deserialization. -/
def parseOptFloat : Value → Except String (Option Rat)
  | .null => .ok none
  | .float q => .ok (some q)
  | .int n => .ok (some (n : Rat))
  | _ => .error "InvalidFieldValue: float"

/-- Parser for a boolean field. -/
def parseBool : Value → Except String Bool
  | .bool b => .ok b
  | _ => .error "InvalidFieldValue: bool"

/-- Parser for the media_type enum field: the enum constructor applied to
the input raises (a decode error) when the value is not the underlying
value of any member. -/
def parseMediaTypeV : Value → Except String MediaType
  | .str s =>
    match MediaType.parse s with
    | some m => .ok m
    | none => .error "InvalidFieldValue: media_type"
  | _ => .error "InvalidFieldValue: media_type"

/-- Parser for the stream_type enum field. -/
def parseStreamTypeV : Value → Except String StreamType
  | .str s =>
    match StreamType.parse s with
    | some m => .ok m
    | none => .error "InvalidFieldValue: stream_type"
  | _ => .error "InvalidFieldValue: stream_type"

/-- Parser for the optional volume_normalization_mode enum field. -/
def parseOptVNMV : Value → Except String (Option VolumeNormalizationMode)
  | .null => .ok none
  | .str s =>
    match VolumeNormalizationMode.parse s with
    | some m => .ok (some m)
    | none => .error "InvalidFieldValue: volume_normalization_mode"
  | _ => .error "InvalidFieldValue: volume_normalization_mode"

/-- Parser for the entries of the dsp mapping. -/
def parseDSPList : List (String × Value) → Except String (List (String × DSPDetails))
  | [] => .ok []
  | (k, v) :: rest => do
    let dd ← DSPDetails.parse v
    let tail ← parseDSPList rest
    .ok ((k, dd) :: tail)

/-- Parser for the optional dsp mapping field. -/
def parseDSPV : Value → Except String (Option (List (String × DSPDetails)))
  | .null => .ok none
  | .dict xs => do
    let m ← parseDSPList xs
    .ok (some m)
  | _ => .error "InvalidFieldValue: dsp"

/-- Extraction of a required field during deserialization: a missing key is
a MissingField decode error. -/
def reqField {α : Type} (d : Dict) (k : String) (p : Value → Except String α) :
    Except String α :=
  match dlookup d k with
  | none => .error ("MissingField: " ++ k)
  | some v => p v

/-- Extraction of a defaulted field during deserialization: a missing key
yields the field's default. -/
def optField {α : Type} (d : Dict) (k : String) (p : Value → Except String α) (dflt : α) :
    Except String α :=
  match dlookup d k with
  | none => .ok dflt
  | some v => p v

/-- Extraction of a deserialize=pass_through field: the raw input value is
taken unchanged when the key is present, the field default otherwise; this
extraction never fails and performs no validation. -/
def passField (d : Dict) (k : String) (dflt : Value) : Value :=
  match dlookup d k with
  | none => dflt
  | some v => v

/-- The generated from_dict of StreamDetails: required fields error when
missing, typed public fields are parsed (enum fields through their member
lookup), pass-through fields are taken raw.  The now argument is the value
the created_at default_factory produces at deserialization time. -/
def StreamDetails.from_dict (now : Value) (d : Dict) : Except String StreamDetails := do
  let provider ← reqField d "provider" parseStr
  let item_id ← reqField d "item_id" parseStr
  let audio_format ← reqField d "audio_format" AudioFormat.parse
  let media_type ← optField d "media_type" parseMediaTypeV .track
  let stream_type ← optField d "stream_type" parseStreamTypeV .custom
  let duration ← optField d "duration" parseOptInt none
  let size ← optField d "size" parseOptInt none
  let stream_title ← optField d "stream_title" parseOptStr none
  let loudness ← optField d "loudness" parseOptFloat none
  let loudness_album ← optField d "loudness_album" parseOptFloat none
  let prefer_album_loudness ← optField d "prefer_album_loudness" parseBool false
  let volume_normalization_mode ← optField d "volume_normalization_mode" parseOptVNMV none
  let volume_normalization_gain_correct ← optField d "volume_normalization_gain_correct" parseOptFloat none
  let target_loudness ← optField d "target_loudness" parseOptFloat none
  let strip_silence_begin ← optField d "strip_silence_begin" parseBool false
  let strip_silence_end ← optField d "strip_silence_end" parseBool false
  let dsp ← optField d "dsp" parseDSPV none
  .ok { provider, item_id, audio_format, media_type, stream_type, duration, size, stream_title,
        path := passField d "path" .null,
        data := passField d "data" .null,
        extra_input_args := passField d "extra_input_args" (.list []),
        decryption_key := passField d "decryption_key" .null,
        allow_seek := passField d "allow_seek" (.bool false),
        can_seek := passField d "can_seek" (.bool false),
        enable_cache := passField d "enable_cache" .null,
        loudness, loudness_album, prefer_album_loudness, volume_normalization_mode,
        volume_normalization_gain_correct, target_loudness, strip_silence_begin,
        strip_silence_end, dsp,
        fade_in := passField d "fade_in" (.bool false),
        seek_position := passField d "seek_position" (.int 0),
        queue_id := passField d "queue_id" .null,
        seconds_streamed := passField d "seconds_streamed" .null,
        stream_error := passField d "stream_error" .null,
        cache := passField d "cache" .null,
        created_at := passField d "created_at" now }

/-- The generated keyword-only constructor of the dataclass: provider,
item_id and audio_format have no default so omitting any of them (modelled
by passing none) raises a TypeError (modelled by returning none); every
other field has the default of its declaration and the supplied values are
stored unchanged, with no cross-field validation.  The now argument is what
the created_at default_factory would produce; a supplied created_at value
overrides it. -/
def StreamDetails.init (provider : Option String) (item_id : Option String)
    (audio_format : Option AudioFormat) (now : Value)
    (media_type : MediaType := .track) (stream_type : StreamType := .custom)
    (duration : Option Int := none) (size : Option Int := none)
    (stream_title : Option String := none) (path : Value := .null) (data : Value := .null)
    (extra_input_args : Value := .list []) (decryption_key : Value := .null)
    (allow_seek : Value := .bool false) (can_seek : Value := .bool false)
    (enable_cache : Value := .null) (loudness : Option Rat := none)
    (loudness_album : Option Rat := none) (prefer_album_loudness : Bool := false)
    (volume_normalization_mode : Option VolumeNormalizationMode := none)
    (volume_normalization_gain_correct : Option Rat := none)
    (target_loudness : Option Rat := none) (strip_silence_begin : Bool := false)
    (strip_silence_end : Bool := false)
    (dsp : Option (List (String × DSPDetails)) := none) (fade_in : Value := .bool false)
    (seek_position : Value := .int 0) (queue_id : Value := .null)
    (seconds_streamed : Value := .null) (stream_error : Value := .null)
    (cache : Value := .null) (created_at : Option Value := none) :
    Option StreamDetails :=
  match provider, item_id, audio_format with
  | some p, some i, some af =>
    some { provider := p, item_id := i, audio_format := af, media_type, stream_type,
           duration, size, stream_title, path, data, extra_input_args, decryption_key,
           allow_seek, can_seek, enable_cache, loudness, loudness_album,
           prefer_album_loudness, volume_normalization_mode,
           volume_normalization_gain_correct, target_loudness, strip_silence_begin,
           strip_silence_end, dsp, fade_in, seek_position, queue_id, seconds_streamed,
           stream_error, cache, created_at := created_at.getD now }
  | _, _, _ => none

/-- The generated equality of the dataclass restricted to one class: the
tuple comparison of exactly the fields declared without compare=False, in
declaration order.  The fields declared with compare=False (path, data,
extra_input_args, decryption_key, allow_seek, can_seek, enable_cache,
fade_in, seek_position, queue_id, seconds_streamed, stream_error, cache,
created_at) do not participate. -/
def streamEq (a b : StreamDetails) : Bool :=
  a.provider == b.provider && a.item_id == b.item_id &&
  a.audio_format == b.audio_format && a.media_type == b.media_type &&
  a.stream_type == b.stream_type && a.duration == b.duration && a.size == b.size &&
  a.stream_title == b.stream_title && a.loudness == b.loudness &&
  a.loudness_album == b.loudness_album &&
  a.prefer_album_loudness == b.prefer_album_loudness &&
  a.volume_normalization_mode == b.volume_normalization_mode &&
  a.volume_normalization_gain_correct == b.volume_normalization_gain_correct &&
  a.target_loudness == b.target_loudness &&
  a.strip_silence_begin == b.strip_silence_begin &&
  a.strip_silence_end == b.strip_silence_end && a.dsp == b.dsp

/-- The combined effect of the two replace statements of
__post_serialize__ on the serialized stream_type string. -/
def remapStr (v : String) : String :=
  pyReplace (pyReplace v "cache" "local_file") "multi_file" "local_file"

/-- The legacy rewrite at the level of StreamType members: the internal
caching members map to local_file, every other member is unchanged. -/
def remapLegacy : StreamType → StreamType
  | .cache => .local_file
  | .multi_file => .local_file
  | t => t

/-- The serialized output mapping of a record, written out explicitly: the
base mapping with the stream_type entry rewritten by the legacy shim. -/
def outDict (s : StreamDetails) : Dict :=
  [("provider", .str s.provider),
   ("item_id", .str s.item_id),
   ("audio_format", s.audio_format.toValue),
   ("media_type", .str s.media_type.value),
   ("stream_type", .str (remapStr s.stream_type.value)),
   ("duration", serOptInt s.duration),
   ("size", serOptInt s.size),
   ("stream_title", serOptStr s.stream_title),
   ("loudness", serOptFloat s.loudness),
   ("loudness_album", serOptFloat s.loudness_album),
   ("prefer_album_loudness", .bool s.prefer_album_loudness),
   ("volume_normalization_mode", serOptVNM s.volume_normalization_mode),
   ("volume_normalization_gain_correct", serOptFloat s.volume_normalization_gain_correct),
   ("target_loudness", serOptFloat s.target_loudness),
   ("strip_silence_begin", .bool s.strip_silence_begin),
   ("strip_silence_end", .bool s.strip_silence_end),
   ("dsp", serDSP s.dsp)]

/-- Whether an Except value is an error. -/
def isError {α : Type} : Except String α → Bool
  | .error _ => true
  | .ok _ => false

/-- A concrete audio format used by the concrete evaluation theorems. -/
def afX : AudioFormat :=
  { content_type := "mp3", sample_rate := 44100, bit_depth := 16, channels := 2 }

/-- A concrete record whose stream_type is the internal single-file caching
member. -/
def s0 : StreamDetails :=
  { provider := "p", item_id := "i", audio_format := afX, stream_type := .cache,
    created_at := .null }

/-- A concrete record matching the spec's uri example. -/
def s1 : StreamDetails :=
  { provider := "spotify", item_id := "123", audio_format := afX, media_type := .track,
    created_at := .null }

/-- A record agreeing with s1 on provider, media_type and item_id but
differing elsewhere. -/
def s1a : StreamDetails :=
  { s1 with duration := some 100, stream_type := .hls, seconds_streamed := .float 3 }

/-- A concrete record built with can_seek true, allow_seek false and no
duration. -/
def sIn : StreamDetails :=
  { provider := "spotify", item_id := "123", audio_format := afX, can_seek := .bool true,
    created_at := .null }

/-- A concrete input mapping holding every server-only key, several of them
with values that do not match the field's declared annotation. -/
def dX : Dict :=
  [("provider", .str "p"), ("item_id", .str "i"), ("audio_format", afX.toValue),
   ("path", .int 7), ("data", .str "blob"), ("extra_input_args", .list [.str "-x"]),
   ("decryption_key", .str "k"), ("allow_seek", .str "yes"), ("can_seek", .bool true),
   ("enable_cache", .bool false), ("fade_in", .bool true), ("seek_position", .int 5),
   ("queue_id", .str "q"), ("seconds_streamed", .float 2), ("stream_error", .bool false),
   ("cache", .dict []), ("created_at", .str "2025")]

/-- The record deserialized from dX. -/
def sX : StreamDetails :=
  ((StreamDetails.from_dict .null dX).toOption).getD s0

/-- The record obtained by deserializing the serialized output of s0. -/
def sC : StreamDetails :=
  ((StreamDetails.from_dict .null (outDict s0)).toOption).getD s0

/-- A concrete input mapping whose stream_type entry holds a string naming
no StreamType member. -/
def dBad : Dict :=
  [("provider", .str "p"), ("item_id", .str "i"), ("audio_format", afX.toValue),
   ("stream_type", .str "unknown_value")]

/-- Serialization always succeeds and produces exactly the explicit output
mapping: the __post_serialize__ hook always finds a string at the
stream_type key of the base mapping. -/
theorem to_dict_spec (s : StreamDetails) : s.to_dict = .ok (outDict s) := rfl

/-- Bind of a successful Except computes to the continuation. -/
theorem ebind_ok {α β : Type} (a : α) (f : α → Except String β) :
    (Except.ok a >>= f : Except String β) = f a := rfl

/-- A bind in Except succeeds exactly when both stages succeed. -/
theorem except_bind_ok {α β : Type} (e : Except String α) (f : α → Except String β) (b : β) :
    (e >>= f) = .ok b ↔ ∃ a, e = .ok a ∧ f a = .ok b := by
  cases e <;> simp [Bind.bind, Except.bind]

/-- Parsing inverts serialization for optional string fields. -/
theorem parse_ser_optStr (x : Option String) : parseOptStr (serOptStr x) = .ok x := by
  cases x <;> rfl

/-- Parsing inverts serialization for optional integer fields. -/
theorem parse_ser_optInt (x : Option Int) : parseOptInt (serOptInt x) = .ok x := by
  cases x <;> rfl

/-- Parsing inverts serialization for optional float fields. -/
theorem parse_ser_optFloat (x : Option Rat) : parseOptFloat (serOptFloat x) = .ok x := by
  cases x <;> rfl

/-- Parsing inverts serialization for the optional
volume_normalization_mode field. -/
theorem parse_ser_vnm (x : Option VolumeNormalizationMode) :
    parseOptVNMV (serOptVNM x) = .ok x := by
  cases x with
  | none => rfl
  | some m => cases m <;> rfl

/-- Parsing inverts serialization for the media_type field. -/
theorem parse_ser_media (m : MediaType) : parseMediaTypeV (.str m.value) = .ok m := by
  cases m <;> rfl

/-- Parsing the serialized stream_type after the legacy rewrite yields the
remapped member: the internal caching members come back as local_file and
every other member comes back unchanged. -/
theorem parse_stream_remap (t : StreamType) :
    parseStreamTypeV (.str (remapStr t.value)) = .ok (remapLegacy t) := by
  cases t <;> rfl

/-- Parsing inverts serialization for the entries of the dsp mapping. -/
theorem parse_ser_dspList (l : List (String × DSPDetails)) :
    parseDSPList (l.map (fun kv => (kv.1, kv.2.toValue))) = .ok l := by
  induction l with
  | nil => rfl
  | cons kv rest ih =>
    obtain ⟨k, dd⟩ := kv
    have h1 : DSPDetails.parse (DSPDetails.toValue dd) = .ok dd := by
      cases dd
      rfl
    simp [parseDSPList, h1, ih, ebind_ok]

/-- Parsing inverts serialization for the optional dsp field. -/
theorem parse_ser_dsp (x : Option (List (String × DSPDetails))) :
    parseDSPV (serDSP x) = .ok x := by
  cases x with
  | none => rfl
  | some l => simp [parseDSPV, serDSP, parse_ser_dspList, ebind_ok]

/-- Parsing inverts serialization for the audio_format field. -/
theorem parse_ser_af (af : AudioFormat) : AudioFormat.parse af.toValue = .ok af := by
  cases af
  rfl

/-- Extraction of provider from the serialized output. -/
theorem ext_provider (s : StreamDetails) :
    reqField (outDict s) "provider" parseStr = .ok s.provider := rfl

/-- Extraction of item_id from the serialized output. -/
theorem ext_item_id (s : StreamDetails) :
    reqField (outDict s) "item_id" parseStr = .ok s.item_id := rfl

/-- Extraction of audio_format from the serialized output. -/
theorem ext_af (s : StreamDetails) :
    reqField (outDict s) "audio_format" AudioFormat.parse = .ok s.audio_format := by
  have h : reqField (outDict s) "audio_format" AudioFormat.parse
      = AudioFormat.parse s.audio_format.toValue := rfl
  rw [h, parse_ser_af]

/-- Extraction of media_type from the serialized output. -/
theorem ext_media (s : StreamDetails) :
    optField (outDict s) "media_type" parseMediaTypeV .track = .ok s.media_type := by
  have h : optField (outDict s) "media_type" parseMediaTypeV .track
      = parseMediaTypeV (.str s.media_type.value) := rfl
  rw [h, parse_ser_media]

/-- Extraction of stream_type from the serialized output: the legacy
rewrite shows through as remapLegacy. -/
theorem ext_stream (s : StreamDetails) :
    optField (outDict s) "stream_type" parseStreamTypeV .custom
      = .ok (remapLegacy s.stream_type) := by
  have h : optField (outDict s) "stream_type" parseStreamTypeV .custom
      = parseStreamTypeV (.str (remapStr s.stream_type.value)) := rfl
  rw [h, parse_stream_remap]

/-- Extraction of duration from the serialized output. -/
theorem ext_duration (s : StreamDetails) :
    optField (outDict s) "duration" parseOptInt none = .ok s.duration := by
  have h : optField (outDict s) "duration" parseOptInt none
      = parseOptInt (serOptInt s.duration) := rfl
  rw [h, parse_ser_optInt]

/-- Extraction of size from the serialized output. -/
theorem ext_size (s : StreamDetails) :
    optField (outDict s) "size" parseOptInt none = .ok s.size := by
  have h : optField (outDict s) "size" parseOptInt none
      = parseOptInt (serOptInt s.size) := rfl
  rw [h, parse_ser_optInt]

/-- Extraction of stream_title from the serialized output. -/
theorem ext_stream_title (s : StreamDetails) :
    optField (outDict s) "stream_title" parseOptStr none = .ok s.stream_title := by
  have h : optField (outDict s) "stream_title" parseOptStr none
      = parseOptStr (serOptStr s.stream_title) := rfl
  rw [h, parse_ser_optStr]

/-- Extraction of loudness from the serialized output. -/
theorem ext_loudness (s : StreamDetails) :
    optField (outDict s) "loudness" parseOptFloat none = .ok s.loudness := by
  have h : optField (outDict s) "loudness" parseOptFloat none
      = parseOptFloat (serOptFloat s.loudness) := rfl
  rw [h, parse_ser_optFloat]

/-- Extraction of loudness_album from the serialized output. -/
theorem ext_loudness_album (s : StreamDetails) :
    optField (outDict s) "loudness_album" parseOptFloat none = .ok s.loudness_album := by
  have h : optField (outDict s) "loudness_album" parseOptFloat none
      = parseOptFloat (serOptFloat s.loudness_album) := rfl
  rw [h, parse_ser_optFloat]

/-- Extraction of prefer_album_loudness from the serialized output. -/
theorem ext_pal (s : StreamDetails) :
    optField (outDict s) "prefer_album_loudness" parseBool false
      = .ok s.prefer_album_loudness := rfl

/-- Extraction of volume_normalization_mode from the serialized output. -/
theorem ext_vnm (s : StreamDetails) :
    optField (outDict s) "volume_normalization_mode" parseOptVNMV none
      = .ok s.volume_normalization_mode := by
  have h : optField (outDict s) "volume_normalization_mode" parseOptVNMV none
      = parseOptVNMV (serOptVNM s.volume_normalization_mode) := rfl
  rw [h, parse_ser_vnm]

/-- Extraction of volume_normalization_gain_correct from the serialized
output. -/
theorem ext_vngc (s : StreamDetails) :
    optField (outDict s) "volume_normalization_gain_correct" parseOptFloat none
      = .ok s.volume_normalization_gain_correct := by
  have h : optField (outDict s) "volume_normalization_gain_correct" parseOptFloat none
      = parseOptFloat (serOptFloat s.volume_normalization_gain_correct) := rfl
  rw [h, parse_ser_optFloat]

/-- Extraction of target_loudness from the serialized output. -/
theorem ext_target (s : StreamDetails) :
    optField (outDict s) "target_loudness" parseOptFloat none = .ok s.target_loudness := by
  have h : optField (outDict s) "target_loudness" parseOptFloat none
      = parseOptFloat (serOptFloat s.target_loudness) := rfl
  rw [h, parse_ser_optFloat]

/-- Extraction of strip_silence_begin from the serialized output. -/
theorem ext_ssb (s : StreamDetails) :
    optField (outDict s) "strip_silence_begin" parseBool false
      = .ok s.strip_silence_begin := rfl

/-- Extraction of strip_silence_end from the serialized output. -/
theorem ext_sse (s : StreamDetails) :
    optField (outDict s) "strip_silence_end" parseBool false
      = .ok s.strip_silence_end := rfl

/-- Extraction of dsp from the serialized output. -/
theorem ext_dsp (s : StreamDetails) :
    optField (outDict s) "dsp" parseDSPV none = .ok s.dsp := by
  have h : optField (outDict s) "dsp" parseDSPV none = parseDSPV (serDSP s.dsp) := rfl
  rw [h, parse_ser_dsp]

/-- Deserializing the serialized output of a record reconstructs every
public field, except that stream_type comes back through the legacy
rewrite; the pass-through fields come back as their defaults because the
serialized output omits them. -/
theorem from_dict_outDict (now : Value) (s : StreamDetails) :
    StreamDetails.from_dict now (outDict s) = .ok
      { provider := s.provider, item_id := s.item_id, audio_format := s.audio_format,
        media_type := s.media_type, stream_type := remapLegacy s.stream_type,
        duration := s.duration, size := s.size, stream_title := s.stream_title,
        loudness := s.loudness, loudness_album := s.loudness_album,
        prefer_album_loudness := s.prefer_album_loudness,
        volume_normalization_mode := s.volume_normalization_mode,
        volume_normalization_gain_correct := s.volume_normalization_gain_correct,
        target_loudness := s.target_loudness,
        strip_silence_begin := s.strip_silence_begin,
        strip_silence_end := s.strip_silence_end, dsp := s.dsp,
        created_at := now } := by
  simp only [StreamDetails.from_dict, ext_provider, ext_item_id, ext_af, ext_media,
    ext_stream, ext_duration, ext_size, ext_stream_title, ext_loudness,
    ext_loudness_album, ext_pal, ext_vnm, ext_vngc, ext_target, ext_ssb, ext_sse,
    ext_dsp, ebind_ok]
  rfl

/-- Inversion of a successful deserialization: each enum field extraction
succeeded with the field stored in the record, and every pass-through field
of the record is the raw extraction from the input. -/
theorem from_dict_ok_shape (now : Value) (d : Dict) (s : StreamDetails)
    (h : StreamDetails.from_dict now d = .ok s) :
    optField d "media_type" parseMediaTypeV .track = .ok s.media_type ∧
    optField d "stream_type" parseStreamTypeV .custom = .ok s.stream_type ∧
    optField d "volume_normalization_mode" parseOptVNMV none
      = .ok s.volume_normalization_mode ∧
    s.path = passField d "path" .null ∧
    s.data = passField d "data" .null ∧
    s.extra_input_args = passField d "extra_input_args" (.list []) ∧
    s.decryption_key = passField d "decryption_key" .null ∧
    s.allow_seek = passField d "allow_seek" (.bool false) ∧
    s.can_seek = passField d "can_seek" (.bool false) ∧
    s.enable_cache = passField d "enable_cache" .null ∧
    s.fade_in = passField d "fade_in" (.bool false) ∧
    s.seek_position = passField d "seek_position" (.int 0) ∧
    s.queue_id = passField d "queue_id" .null ∧
    s.seconds_streamed = passField d "seconds_streamed" .null ∧
    s.stream_error = passField d "stream_error" .null ∧
    s.cache = passField d "cache" .null ∧
    s.created_at = passField d "created_at" now := by
  simp only [StreamDetails.from_dict, except_bind_ok, Except.ok.injEq] at h
  obtain ⟨p, hp, i, hi, af, haf, mt, hmt, st, hst, du, hdu, sz, hsz, stt, hstt, lo, hlo,
    loa, hloa, pal, hpal, vnm, hvnm, vngc, hvngc, tl, htl, ssb, hssb, sse, hsse, ds, hds,
    hfin⟩ := h
  subst hfin
  exact ⟨hmt, hst, hvnm, rfl, rfl, rfl, rfl, rfl, rfl, rfl, rfl, rfl, rfl, rfl, rfl, rfl,
    rfl⟩

/-- C9: for every record, the derived uri accessor and serialization to the
transport mapping always succeed; in particular the post-serialization
stream_type rewrite always finds a stream_type entry to rewrite (uri is
moreover total by construction in this embedding). -/
theorem uri_and_serialization_total (s : StreamDetails) :
    (∃ u, s.uri = u) ∧ (∃ d2, s.to_dict = Except.ok d2) :=
  ⟨⟨s.uri, rfl⟩, ⟨outDict s, to_dict_spec s⟩⟩

/-- C10: serialization is read-only with respect to the record: the record
returned next to the output mapping by the state-passing serialization
pipeline is the input record itself, and in particular its stream_type
still holds its original value. -/
theorem serialization_frame (s : StreamDetails) :
    s.to_dict_st.1 = s ∧ s.to_dict_st.1.stream_type = s.stream_type :=
  ⟨rfl, rfl⟩

/-- C2: when a record's stream_type is the internal cache or multi_file
member, the serialized output's stream_type entry is the string
local_file. -/
theorem legacy_stream_type_serializes_to_local_file (s : StreamDetails) (d : Dict)
    (h1 : s.stream_type = StreamType.cache ∨ s.stream_type = StreamType.multi_file)
    (h2 : s.to_dict = .ok d) :
    dlookup d "stream_type" = some (.str "local_file") := by
  have hd := to_dict_spec s
  rw [h2] at hd
  injection hd with hd
  subst hd
  have hl : dlookup (outDict s) "stream_type" = some (.str (remapStr s.stream_type.value)) :=
    rfl
  rw [hl]
  rcases h1 with h | h <;> rw [h] <;> rfl

/-- C2 witness: concrete evaluation at the record s0, whose stream_type is
the cache member. -/
theorem legacy_stream_type_witness :
    dlookup (outDict s0) "stream_type" = some (.str "local_file") :=
  legacy_stream_type_serializes_to_local_file s0 (outDict s0) (Or.inl rfl) rfl

/-- C3: the serialized output mapping contains no key named after any of
the fourteen server-only fields, whatever the record holds. -/
theorem serialized_output_omits_server_fields (s : StreamDetails) (d : Dict)
    (h : s.to_dict = .ok d) :
    ¬ ("path" ∈ d.map Prod.fst) ∧ ¬ ("data" ∈ d.map Prod.fst) ∧
    ¬ ("extra_input_args" ∈ d.map Prod.fst) ∧ ¬ ("decryption_key" ∈ d.map Prod.fst) ∧
    ¬ ("allow_seek" ∈ d.map Prod.fst) ∧ ¬ ("can_seek" ∈ d.map Prod.fst) ∧
    ¬ ("enable_cache" ∈ d.map Prod.fst) ∧ ¬ ("fade_in" ∈ d.map Prod.fst) ∧
    ¬ ("seek_position" ∈ d.map Prod.fst) ∧ ¬ ("queue_id" ∈ d.map Prod.fst) ∧
    ¬ ("seconds_streamed" ∈ d.map Prod.fst) ∧ ¬ ("stream_error" ∈ d.map Prod.fst) ∧
    ¬ ("cache" ∈ d.map Prod.fst) ∧ ¬ ("created_at" ∈ d.map Prod.fst) := by
  have hd := to_dict_spec s
  rw [h] at hd
  injection hd with hd
  subst hd
  have hk : (outDict s).map Prod.fst =
      ["provider", "item_id", "audio_format", "media_type", "stream_type", "duration",
       "size", "stream_title", "loudness", "loudness_album", "prefer_album_loudness",
       "volume_normalization_mode", "volume_normalization_gain_correct", "target_loudness",
       "strip_silence_begin", "strip_silence_end", "dsp"] := rfl
  rw [hk]
  refine ⟨?_, ?_, ?_, ?_, ?_, ?_, ?_, ?_, ?_, ?_, ?_, ?_, ?_, ?_⟩ <;> decide

/-- C3 witness: concrete evaluation at the record s0. -/
theorem serialized_output_omits_witness :
    ¬ ("path" ∈ (outDict s0).map Prod.fst) ∧ ¬ ("data" ∈ (outDict s0).map Prod.fst) ∧
    ¬ ("extra_input_args" ∈ (outDict s0).map Prod.fst) ∧
    ¬ ("decryption_key" ∈ (outDict s0).map Prod.fst) ∧
    ¬ ("allow_seek" ∈ (outDict s0).map Prod.fst) ∧
    ¬ ("can_seek" ∈ (outDict s0).map Prod.fst) ∧
    ¬ ("enable_cache" ∈ (outDict s0).map Prod.fst) ∧
    ¬ ("fade_in" ∈ (outDict s0).map Prod.fst) ∧
    ¬ ("seek_position" ∈ (outDict s0).map Prod.fst) ∧
    ¬ ("queue_id" ∈ (outDict s0).map Prod.fst) ∧
    ¬ ("seconds_streamed" ∈ (outDict s0).map Prod.fst) ∧
    ¬ ("stream_error" ∈ (outDict s0).map Prod.fst) ∧
    ¬ ("cache" ∈ (outDict s0).map Prod.fst) ∧
    ¬ ("created_at" ∈ (outDict s0).map Prod.fst) :=
  serialized_output_omits_server_fields s0 (outDict s0) rfl

/-- C5: the derived uri accessor returns exactly provider, then "://", then
the media_type value, then "/", then item_id, and depends on those three
fields only. -/
theorem uri_contract (s : StreamDetails) :
    s.uri = s.provider ++ "://" ++ s.media_type.value ++ "/" ++ s.item_id ∧
    ∀ t : StreamDetails, t.provider = s.provider → t.media_type = s.media_type →
      t.item_id = s.item_id → t.uri = s.uri := by
  refine ⟨rfl, ?_⟩
  intro t h1 h2 h3
  simp [StreamDetails.uri, h1, h2, h3]

/-- C5 witness: the uri of the record with provider spotify, media_type
track and item_id 123 is the string of the spec's example, and a record
agreeing on exactly those three fields has the same uri. -/
theorem uri_contract_witness :
    s1.uri = "spotify://track/123" ∧ s1a.uri = s1.uri := by
  constructor
  · have h := (uri_contract s1).1
    rw [h]
    decide
  · exact (uri_contract s1).2 s1a rfl rfl rfl

/-- C1 counterexample: the record s0 has stream_type cache, its serialized
output deserializes to the record sC whose stream_type is local_file, so
the round trip does not preserve the stream_type field for the cache
member. -/
theorem roundtrip_counterexample :
    s0.stream_type = StreamType.cache ∧
    StreamDetails.to_dict s0 = .ok (outDict s0) ∧
    StreamDetails.from_dict .null (outDict s0) = .ok sC ∧
    sC.stream_type = StreamType.local_file ∧
    StreamType.local_file ≠ StreamType.cache :=
  ⟨rfl, rfl, rfl, rfl, by decide⟩

/-- C1 (amended): serializing then deserializing reproduces every public
field except stream_type, which comes back through the legacy rewrite:
unchanged for every member other than cache and multi_file, and local_file
for those two; the omitted server-only fields come back as their defaults
and created_at as the deserialization-time default. -/
theorem roundtrip_public_fields (s : StreamDetails) (now : Value) (d : Dict)
    (h : s.to_dict = .ok d) :
    StreamDetails.from_dict now d = .ok
      { provider := s.provider, item_id := s.item_id, audio_format := s.audio_format,
        media_type := s.media_type, stream_type := remapLegacy s.stream_type,
        duration := s.duration, size := s.size, stream_title := s.stream_title,
        loudness := s.loudness, loudness_album := s.loudness_album,
        prefer_album_loudness := s.prefer_album_loudness,
        volume_normalization_mode := s.volume_normalization_mode,
        volume_normalization_gain_correct := s.volume_normalization_gain_correct,
        target_loudness := s.target_loudness,
        strip_silence_begin := s.strip_silence_begin,
        strip_silence_end := s.strip_silence_end, dsp := s.dsp,
        created_at := now } := by
  have hd := to_dict_spec s
  rw [h] at hd
  injection hd with hd
  subst hd
  exact from_dict_outDict now s

/-- C1 witness: concrete round trip at the record s1a, whose stream_type
hls is outside the legacy remap. -/
theorem roundtrip_public_fields_witness :
    StreamDetails.from_dict .null (outDict s1a) = .ok
      { provider := s1a.provider, item_id := s1a.item_id, audio_format := s1a.audio_format,
        media_type := s1a.media_type, stream_type := remapLegacy s1a.stream_type,
        duration := s1a.duration, size := s1a.size, stream_title := s1a.stream_title,
        loudness := s1a.loudness, loudness_album := s1a.loudness_album,
        prefer_album_loudness := s1a.prefer_album_loudness,
        volume_normalization_mode := s1a.volume_normalization_mode,
        volume_normalization_gain_correct := s1a.volume_normalization_gain_correct,
        target_loudness := s1a.target_loudness,
        strip_silence_begin := s1a.strip_silence_begin,
        strip_silence_end := s1a.strip_silence_end, dsp := s1a.dsp,
        created_at := .null } :=
  roundtrip_public_fields s1a .null (outDict s1a) (to_dict_spec s1a)

/-- C4: two records compare equal exactly when every field not excluded
from comparison (the non-server-only fields) is pairwise equal, and
records differing only in the compare-excluded bookkeeping fields
(created_at, seconds_streamed, cache, path, and the rest) always compare
equal. -/
theorem equality_contract (a b : StreamDetails) :
    (streamEq a b = true ↔ (a.provider = b.provider ∧ a.item_id = b.item_id ∧
      a.audio_format = b.audio_format ∧ a.media_type = b.media_type ∧
      a.stream_type = b.stream_type ∧ a.duration = b.duration ∧ a.size = b.size ∧
      a.stream_title = b.stream_title ∧ a.loudness = b.loudness ∧
      a.loudness_album = b.loudness_album ∧
      a.prefer_album_loudness = b.prefer_album_loudness ∧
      a.volume_normalization_mode = b.volume_normalization_mode ∧
      a.volume_normalization_gain_correct = b.volume_normalization_gain_correct ∧
      a.target_loudness = b.target_loudness ∧
      a.strip_silence_begin = b.strip_silence_begin ∧
      a.strip_silence_end = b.strip_silence_end ∧ a.dsp = b.dsp)) ∧
    (∀ ca ss ch : Value,
      streamEq a { a with created_at := ca, seconds_streamed := ss, cache := ch } = true) := by
  constructor
  · simp [streamEq, and_assoc]
  · intro ca ss ch
    simp [streamEq]

/-- A pass-through extraction returns the present input value. -/
theorem passField_lookup (d : Dict) (k : String) (dflt v : Value)
    (hv : dlookup d k = some v) : passField d k dflt = v := by
  simp [passField, hv]

/-- C6: deserialization of a mapping in which an enum-typed field holds a
string naming no member of its enumeration fails with a decode error
instead of producing a record. -/
theorem deserialize_unknown_enum_fails (now : Value) (d : Dict)
    (h : (∃ v, dlookup d "media_type" = some (.str v) ∧ MediaType.parse v = none) ∨
         (∃ v, dlookup d "stream_type" = some (.str v) ∧ StreamType.parse v = none) ∨
         (∃ v, dlookup d "volume_normalization_mode" = some (.str v) ∧
           VolumeNormalizationMode.parse v = none)) :
    isError (StreamDetails.from_dict now d) = true := by
  cases hres : StreamDetails.from_dict now d with
  | error e => rfl
  | ok s =>
    exfalso
    obtain ⟨hmt, hst, hvnm, -⟩ := from_dict_ok_shape now d s hres
    rcases h with ⟨v, hv, hpv⟩ | ⟨v, hv, hpv⟩ | ⟨v, hv, hpv⟩
    · simp [optField, hv, parseMediaTypeV, hpv] at hmt
    · simp [optField, hv, parseStreamTypeV, hpv] at hst
    · simp [optField, hv, parseOptVNMV, hpv] at hvnm

/-- C6 witness: concrete evaluation at the mapping dBad, whose stream_type
entry is the string unknown_value. -/
theorem deserialize_unknown_enum_witness :
    isError (StreamDetails.from_dict .null dBad) = true :=
  deserialize_unknown_enum_fails .null dBad (Or.inr (Or.inl ⟨"unknown_value", rfl, rfl⟩))

/-- C7: construction fails exactly when provider, item_id or audio_format
is missing, and a successful construction stores every supplied field
value unchanged — in particular there is no cross-field validation, so
can_seek true with allow_seek false or with no duration is stored as
given. -/
theorem construction_contract
    (p i : Option String) (af : Option AudioFormat) (now : Value) (mt : MediaType)
    (st : StreamType) (dur sz : Option Int) (stt : Option String)
    (pa da eia dk als cs ec : Value) (lo loa : Option Rat) (pal : Bool)
    (vnm : Option VolumeNormalizationMode) (vngc tl : Option Rat) (ssb sse : Bool)
    (ds : Option (List (String × DSPDetails))) (fi sp qi ss se ca : Value)
    (cra : Option Value) :
    (StreamDetails.init p i af now mt st dur sz stt pa da eia dk als cs ec lo loa pal vnm
        vngc tl ssb sse ds fi sp qi ss se ca cra = none ↔
      (p = none ∨ i = none ∨ af = none)) ∧
    (∀ s2, StreamDetails.init p i af now mt st dur sz stt pa da eia dk als cs ec lo loa pal
        vnm vngc tl ssb sse ds fi sp qi ss se ca cra = some s2 →
      p = some s2.provider ∧ i = some s2.item_id ∧ af = some s2.audio_format ∧
      s2.media_type = mt ∧ s2.stream_type = st ∧ s2.duration = dur ∧ s2.size = sz ∧
      s2.stream_title = stt ∧ s2.path = pa ∧ s2.data = da ∧ s2.extra_input_args = eia ∧
      s2.decryption_key = dk ∧ s2.allow_seek = als ∧ s2.can_seek = cs ∧
      s2.enable_cache = ec ∧ s2.loudness = lo ∧ s2.loudness_album = loa ∧
      s2.prefer_album_loudness = pal ∧ s2.volume_normalization_mode = vnm ∧
      s2.volume_normalization_gain_correct = vngc ∧ s2.target_loudness = tl ∧
      s2.strip_silence_begin = ssb ∧ s2.strip_silence_end = sse ∧ s2.dsp = ds ∧
      s2.fade_in = fi ∧ s2.seek_position = sp ∧ s2.queue_id = qi ∧
      s2.seconds_streamed = ss ∧ s2.stream_error = se ∧ s2.cache = ca ∧
      s2.created_at = cra.getD now) := by
  constructor
  · cases p <;> cases i <;> cases af <;> simp [StreamDetails.init]
  · intro s2 h
    cases p with
    | none => exact Option.noConfusion h
    | some a =>
      cases i with
      | none => exact Option.noConfusion h
      | some b =>
        cases af with
        | none => exact Option.noConfusion h
        | some c =>
          simp only [StreamDetails.init, Option.some.injEq] at h
          subst h
          exact ⟨rfl, rfl, rfl, rfl, rfl, rfl, rfl, rfl, rfl, rfl, rfl, rfl, rfl, rfl,
            rfl, rfl, rfl, rfl, rfl, rfl, rfl, rfl, rfl, rfl, rfl, rfl, rfl, rfl, rfl,
            rfl, rfl⟩

/-- C7 witness: concrete construction with all three required arguments
supplied, can_seek true, allow_seek false and duration absent succeeds and
stores exactly those values. -/
theorem construction_contract_witness :
    sIn.can_seek = Value.bool true ∧ sIn.duration = none ∧
    sIn.allow_seek = Value.bool false ∧ sIn.provider = "spotify" := by
  have h := (construction_contract (some "spotify") (some "123") (some afX) Value.null
      MediaType.track StreamType.custom none none none Value.null Value.null
      (Value.list []) Value.null (Value.bool false) (Value.bool true) Value.null none none
      false none none none false false none (Value.bool false) (Value.int 0) Value.null
      Value.null Value.null Value.null none).2 sIn rfl
  obtain ⟨h1, h2, h3, h4, h5, h6, h7, h8, h9, h10, h11, h12, h13, h14, h15, h16, h17, h18,
    h19, h20, h21, h22, h23, h24, h25, h26, h27, h28, h29, h30, h31⟩ := h
  exact ⟨h14, h6, h13, rfl⟩

/-- C8: every server-only field present in the input mapping passes through
deserialization unchanged into the record, without type validation and
without being rejected. -/
theorem passthrough_fields_unvalidated (now : Value) (d : Dict) (s : StreamDetails)
    (h : StreamDetails.from_dict now d = .ok s) :
    (∀ v, dlookup d "path" = some v → s.path = v) ∧
    (∀ v, dlookup d "data" = some v → s.data = v) ∧
    (∀ v, dlookup d "extra_input_args" = some v → s.extra_input_args = v) ∧
    (∀ v, dlookup d "decryption_key" = some v → s.decryption_key = v) ∧
    (∀ v, dlookup d "allow_seek" = some v → s.allow_seek = v) ∧
    (∀ v, dlookup d "can_seek" = some v → s.can_seek = v) ∧
    (∀ v, dlookup d "enable_cache" = some v → s.enable_cache = v) ∧
    (∀ v, dlookup d "fade_in" = some v → s.fade_in = v) ∧
    (∀ v, dlookup d "seek_position" = some v → s.seek_position = v) ∧
    (∀ v, dlookup d "queue_id" = some v → s.queue_id = v) ∧
    (∀ v, dlookup d "seconds_streamed" = some v → s.seconds_streamed = v) ∧
    (∀ v, dlookup d "stream_error" = some v → s.stream_error = v) ∧
    (∀ v, dlookup d "cache" = some v → s.cache = v) ∧
    (∀ v, dlookup d "created_at" = some v → s.created_at = v) := by
  obtain ⟨-, -, -, hp, hda, heia, hdk, hals, hcs, hec, hfi, hsp, hqi, hss, hse, hca, hcra⟩ :=
    from_dict_ok_shape now d s h
  exact ⟨fun v hv => hp.trans (passField_lookup d "path" _ v hv),
    fun v hv => hda.trans (passField_lookup d "data" _ v hv),
    fun v hv => heia.trans (passField_lookup d "extra_input_args" _ v hv),
    fun v hv => hdk.trans (passField_lookup d "decryption_key" _ v hv),
    fun v hv => hals.trans (passField_lookup d "allow_seek" _ v hv),
    fun v hv => hcs.trans (passField_lookup d "can_seek" _ v hv),
    fun v hv => hec.trans (passField_lookup d "enable_cache" _ v hv),
    fun v hv => hfi.trans (passField_lookup d "fade_in" _ v hv),
    fun v hv => hsp.trans (passField_lookup d "seek_position" _ v hv),
    fun v hv => hqi.trans (passField_lookup d "queue_id" _ v hv),
    fun v hv => hss.trans (passField_lookup d "seconds_streamed" _ v hv),
    fun v hv => hse.trans (passField_lookup d "stream_error" _ v hv),
    fun v hv => hca.trans (passField_lookup d "cache" _ v hv),
    fun v hv => hcra.trans (passField_lookup d "created_at" _ v hv)⟩

/-- C8 witness: concrete deserialization of the mapping dX, whose
server-only entries include values that do not match the declared field
annotations, succeeds and stores them verbatim. -/
theorem passthrough_fields_witness :
    StreamDetails.from_dict Value.null dX = .ok sX ∧ sX.path = Value.int 7 ∧
    sX.allow_seek = Value.str "yes" ∧ sX.created_at = Value.str "2025" := by
  have h := passthrough_fields_unvalidated Value.null dX sX rfl
  exact ⟨rfl, h.1 (Value.int 7) rfl, h.2.2.2.2.1 (Value.str "yes") rfl,
    h.2.2.2.2.2.2.2.2.2.2.2.2.2 (Value.str "2025") rfl⟩
